import Mathlib

/-!
Verification development for the orbit document-processing service.

The definitions below are a shallow embedding of the Python source:

* `src/app/core/pdf_processor/extractor.py` — `group_narrative_by_title`
  (the narrative grouper, embedded as a pure fold `runGroups` over the
  chunk list with the loop body `stepChunk` and the inner helper
  `save_current_group`);
* `src/app/service/document_service.py` — `monitor_job_progress`,
  `upload_results_to_s3` (results-key derivation), `process_document`,
  `process_document_fileobj`;
* `src/app/service/textract_service.py` — `wait_for_job_completion`;
* `src/app/api/document_api.py` — the upload endpoint `process_document`.

Python strings are modelled as Lean `String`s with explicit models of the
string methods the source uses (`strip`, `join`, `lower`, `endswith`,
`split`); these models cover the ASCII text the service manipulates.
Remote collaborators (S3, Textract) are modelled as environments: the
status polls become a function `Nat → String` giving the status returned
by the k-th poll, and the side effects of the workflow are recorded in an
explicit event trace.
-/

namespace Orbit

/-! ### Models of the Python string operations used by the source -/

/-- Model of Python `str.strip()` on a character list: drop whitespace from
both ends. -/
def stripChars (l : List Char) : List Char :=
  ((l.dropWhile Char.isWhitespace).reverse.dropWhile Char.isWhitespace).reverse

/-- Model of Python `str.strip()`. -/
def pyStrip (s : String) : String := ⟨stripChars s.data⟩

/-- Model of Python `sep.join(parts)`. -/
def pyJoin (sep : String) : List String → String
  | [] => ""
  | [x] => x
  | x :: y :: xs => x ++ sep ++ pyJoin sep (y :: xs)

/-- Model of Python `str.lower()` (ASCII case folding, which covers the
filenames and keys the service handles). -/
def pyLower (s : String) : String := ⟨s.data.map Char.toLower⟩

/-- Model of Python `str.endswith(suffix)`. -/
def pyEndsWith (s suff : String) : Bool :=
  s.data.reverse.take suff.data.length == suff.data.reverse

/-- Split a character list on a separator character, keeping empty pieces,
as Python `str.split(sep)` does. -/
def splitOnChar (sep : Char) : List Char → List (List Char)
  | [] => [[]]
  | c :: cs =>
    let r := splitOnChar sep cs
    if c = sep then [] :: r
    else
      match r with
      | [] => [[c]]
      | h :: t => (c :: h) :: t

/-! ### Data model of the narrative grouper (`extractor.py`)

A chunk carries its text, an optional page number (from
`chunk.metadata.to_dict()["page_number"]`) and the decoded original
elements (`elements_from_base64_gzipped_json(metadata["orig_elements"])`,
modelled as the already-decoded list). -/

structure PdfElement where
  category : String
  text : String
deriving DecidableEq, Repr

structure Chunk where
  text : String
  page_number : Option Nat
  orig_elements : List PdfElement
deriving DecidableEq, Repr

structure NarrativeGroup where
  title : String
  content : String
  page_numbers : List Nat
deriving DecidableEq, Repr

/-- The mutable accumulator of `group_narrative_by_title`:
`current_titles`, `current_content` and `current_page_numbers`.  The
Python page-number set is modelled as a duplicate-free list in insertion
order (the flush sorts it, so only membership matters). -/
structure GroupState where
  current_titles : List String
  current_content : List String
  current_page_numbers : List Nat
deriving DecidableEq, Repr

def initState : GroupState := ⟨[], [], []⟩

/-- Model of `set.add`: insert a page number if it is not present. -/
def insertPage (p : Nat) (s : List Nat) : List Nat :=
  if p ∈ s then s else s ++ [p]

/-- `current_page_numbers.add(page_number)` guarded by
`if page_number is not None`. -/
def addPage (pn : Option Nat) (s : List Nat) : List Nat :=
  match pn with
  | some p => insertPage p s
  | none => s

/-- Insertion sort on page numbers, modelling Python `sorted`. -/
def insertSorted (p : Nat) : List Nat → List Nat
  | [] => [p]
  | q :: qs => if p ≤ q then p :: q :: qs else q :: insertSorted p qs

def sortPages (l : List Nat) : List Nat := l.foldr insertSorted []

/-- `chunk_titles = [elem.text.strip() for elem in orig_elements
if elem.category == "Title" and elem.text.strip()]`. -/
def chunkTitles (c : Chunk) : List String :=
  c.orig_elements.filterMap fun e =>
    if e.category = "Title" ∧ pyStrip e.text ≠ "" then some (pyStrip e.text)
    else none

/-- Embedding of the inner `save_current_group` of
`group_narrative_by_title` (extractor.py lines 62-84): returns the list of
groups appended to `result` (empty or a singleton). -/
def save_current_group (st : GroupState) : List NarrativeGroup :=
  if st.current_titles ≠ [] ∨ st.current_content ≠ [] then
    let title := if st.current_titles ≠ [] then pyJoin " | " st.current_titles
                 else "Untitled"
    let content := pyStrip (pyJoin " " st.current_content)
    let page_numbers := if st.current_page_numbers ≠ []
                        then sortPages st.current_page_numbers else []
    if title ≠ "" ∨ content ≠ "" then [⟨title, content, page_numbers⟩]
    else []
  else []

/-- Embedding of one iteration of the `for chunk in chunks` loop of
`group_narrative_by_title` (extractor.py lines 86-117): returns the groups
emitted during this iteration and the updated accumulator. -/
def stepChunk (st : GroupState) (c : Chunk) : List NarrativeGroup × GroupState :=
  let chunk_text := pyStrip c.text
  if chunk_text = "" then ([], st)
  else
    let st1 : GroupState :=
      ⟨st.current_titles, st.current_content,
       addPage c.page_number st.current_page_numbers⟩
    if chunkTitles c ≠ [] then
      if st1.current_content ≠ [] then
        (save_current_group st1,
         ⟨chunkTitles c, [chunk_text], addPage c.page_number []⟩)
      else
        ([], ⟨st1.current_titles ++ chunkTitles c, [chunk_text],
              st1.current_page_numbers⟩)
    else
      ([], ⟨st1.current_titles, st1.current_content ++ [chunk_text],
            st1.current_page_numbers⟩)

/-- The loop of `group_narrative_by_title`, as a structural recursion over
the chunk list threading the accumulator. -/
def runGroups (st : GroupState) : List Chunk → List NarrativeGroup × GroupState
  | [] => ([], st)
  | c :: cs =>
    let out := stepChunk st c
    let rest := runGroups out.2 cs
    (out.1 ++ rest.1, rest.2)

/-- Embedding of `group_narrative_by_title` (extractor.py lines 56-121):
run the loop from the empty accumulator, then perform the final
`save_current_group()`. -/
def group_narrative_by_title (chunks : List Chunk) : List NarrativeGroup :=
  (runGroups initState chunks).1
    ++ save_current_group (runGroups initState chunks).2

/-! ### Job monitors

`document_service.monitor_job_progress` and
`textract_service.wait_for_job_completion` both loop over
`check_job_status(job_id)`; the remote job is modelled by a function
`statuses : Nat → String` giving the status string returned by the k-th
poll (0-indexed).  `monitor_job_progress` is bounded by wall-clock time:
with the idealized clock in which the k-th poll happens at elapsed time
`k * polling_interval` (the `time.sleep(polling_interval)` dominates each
iteration), the guard `elapsed_time < max_time` admits exactly
`⌈max_time / polling_interval⌉` iterations, so the two loops share one
embedding that counts permitted polls. -/

/-- `['SUCCEEDED', 'FAILED', 'PARTIAL_SUCCESS']`, the statuses both
monitors treat as terminal. -/
def terminalStatuses : List String := ["SUCCEEDED", "FAILED", "PARTIAL_SUCCESS"]

def isTerminal (s : String) : Bool := terminalStatuses.contains s

/-- Outcome of a monitor loop: either a terminal status together with the
number of polls performed, or a `TimeoutError` (kept as a distinct
constructor, with the number of polls performed before giving up). -/
inductive MonitorOutcome where
  | completed (status : String) (polls : Nat)
  | timedOut (polls : Nat)
deriving DecidableEq, Repr

/-- Shared polling loop: poll `statuses attempt`, return on a terminal
status, otherwise sleep and retry while fuel remains. -/
def pollLoop (statuses : Nat → String) (attempt : Nat) :
    Nat → MonitorOutcome
  | 0 => .timedOut attempt
  | fuel + 1 =>
    let s := statuses attempt
    if isTerminal s then .completed s (attempt + 1)
    else pollLoop statuses (attempt + 1) fuel

/-- Embedding of `textract_service.wait_for_job_completion` (lines
151-161): `for attempt in range(max_attempts)` polls, returning on a
terminal status, and raises `TimeoutError` after `max_attempts`
non-terminal polls. -/
def wait_for_job_completion (statuses : Nat → String) (max_attempts : Nat) :
    MonitorOutcome :=
  pollLoop statuses 0 max_attempts

/-- Number of loop iterations the guard `elapsed_time < max_time` admits
when the k-th poll happens at elapsed time `k * polling_interval`:
`⌈max_time / polling_interval⌉` (for a positive interval). -/
def monitorPollBudget (polling_interval max_time : Nat) : Nat :=
  (max_time + polling_interval - 1) / polling_interval

/-- Embedding of `document_service.monitor_job_progress` (lines 138-154)
under the idealized clock described above. -/
def monitor_job_progress (statuses : Nat → String)
    (polling_interval max_time : Nat) : MonitorOutcome :=
  pollLoop statuses 0 (monitorPollBudget polling_interval max_time)

/-! ### Results-key derivation (`upload_results_to_s3`)

`results_key = f"{path.parent}/{path.stem}_results.json"` with
`path = Path(original_s3_key)`.  `pathParent` and `pathStem` model
`pathlib.PurePosixPath.parent` / `.stem` for the relative keys the
service builds (components are the non-empty, non-`"."` pieces between
slashes; the parent of a single-component path renders as `"."`;
the stem cuts the name at its last dot when that dot is neither the
first nor the last character of the name). -/

def pathParts (s : String) : List String :=
  ((splitOnChar '/' s.data).map (fun l => (⟨l⟩ : String))).filter
    (fun p => p ≠ "" ∧ p ≠ ".")

def pathParent (s : String) : String :=
  match (pathParts s).dropLast with
  | [] => "."
  | ps => pyJoin "/" ps

def pathName (s : String) : String := ((pathParts s).getLast?).getD ""

/-- Index of the last `'.'` in a character list, if any. -/
def lastDotIdx : List Char → Option Nat
  | [] => none
  | c :: cs =>
    match lastDotIdx cs with
    | some i => some (i + 1)
    | none => if c = '.' then some 0 else none

def pathStem (s : String) : String :=
  let n := (pathName s).data
  match lastDotIdx n with
  | some i => if 0 < i ∧ i < n.length - 1 then ⟨n.take i⟩ else ⟨n⟩
  | none => ⟨n⟩

/-- The results key built by `upload_results_to_s3`
(document_service.py lines 189-197). -/
def resultsKeyFor (original_s3_key : String) : String :=
  pathParent original_s3_key ++ "/" ++ pathStem original_s3_key
    ++ "_results.json"

/-- Model of `os.path.basename`, used by `upload_pdf_to_s3` when no key is
supplied: everything after the last slash. -/
def basename (path : String) : String :=
  (⟨((splitOnChar '/' path.data).getLast?).getD []⟩ : String)

/-! ### Synchronous workflow (`process_document` / `process_document_fileobj`)

Both run: upload the document, start analysis, monitor with the default
arguments (`polling_interval=30`, `max_time=3600`), and only on a
`SUCCEEDED` terminal status fetch the results and upload them under the
derived results key.  The calls to the S3 and Textract collaborators are
recorded in an event trace; the analysis-results payload is an abstract
type `α` supplied by the environment. -/

inductive WorkflowEvent (α : Type) where
  | uploadDocument (key : String)
  | startAnalysis (key : String)
  | fetchResults (job_id : String)
  | uploadResults (key : String) (payload : α)

structure WorkflowResult where
  job_id : String
  status : String
  document_key : String
  results_key : Option String
deriving DecidableEq, Repr

/-- The external collaborators of one workflow run: the job id Textract
assigns, the status returned by each poll, and the (paginated, already
accumulated) analysis results payload. -/
structure WorkflowEnv (α : Type) where
  job_id : String
  statuses : Nat → String
  results : α

/-- Embedding of `DocumentService.process_document_fileobj`
(document_service.py lines 254-308).  A monitor timeout propagates as the
error case (the `except` clause re-raises). -/
def process_document_fileobj {α : Type} (env : WorkflowEnv α)
    (filename : String) (s3_key : Option String) :
    List (WorkflowEvent α) × Except Nat WorkflowResult :=
  let document_key := s3_key.getD filename
  let pre : List (WorkflowEvent α) :=
    [.uploadDocument document_key, .startAnalysis document_key]
  match monitor_job_progress env.statuses 30 3600 with
  | .timedOut n => (pre, .error n)
  | .completed status _ =>
    if status ≠ "SUCCEEDED" then
      (pre, .ok ⟨env.job_id, status, document_key, none⟩)
    else
      let results_key := resultsKeyFor document_key
      (pre ++ [.fetchResults env.job_id,
               .uploadResults results_key env.results],
       .ok ⟨env.job_id, status, document_key, some results_key⟩)

/-- Embedding of `DocumentService.process_document` (document_service.py
lines 199-252); identical to the file-object variant except that a missing
key defaults to `os.path.basename(pdf_path)`. -/
def process_document {α : Type} (env : WorkflowEnv α)
    (pdf_path : String) (s3_key : Option String) :
    List (WorkflowEvent α) × Except Nat WorkflowResult :=
  let document_key := s3_key.getD (basename pdf_path)
  let pre : List (WorkflowEvent α) :=
    [.uploadDocument document_key, .startAnalysis document_key]
  match monitor_job_progress env.statuses 30 3600 with
  | .timedOut n => (pre, .error n)
  | .completed status _ =>
    if status ≠ "SUCCEEDED" then
      (pre, .ok ⟨env.job_id, status, document_key, none⟩)
    else
      let results_key := resultsKeyFor document_key
      (pre ++ [.fetchResults env.job_id,
               .uploadResults results_key env.results],
       .ok ⟨env.job_id, status, document_key, some results_key⟩)

/-! ### Upload endpoint (`document_api.process_document`)

The endpoint validates the filename first; only after validation does it
read the upload and schedule the background processing task (which is
what later performs the S3 upload and Textract call), so a rejected
upload triggers neither. -/

structure HttpError where
  status_code : Nat
  detail : String
deriving DecidableEq, Repr

structure DocumentResponse where
  job_id : String
  status : String
  document_key : String
  results_key : Option String
  message : String
deriving DecidableEq, Repr

inductive ApiEvent where
  | readUpload
  | scheduleBackgroundProcessing (filename s3_key : String)
deriving DecidableEq, Repr

/-- Embedding of the upload endpoint (document_api.py lines 42-82).
`uuid_str` stands for the generated `uuid.uuid4()`. -/
def process_document_endpoint (filename uuid_str : String) :
    List ApiEvent × Except HttpError DocumentResponse :=
  if ¬ pyEndsWith (pyLower filename) ".pdf" then
    ([], .error ⟨400, "Only PDF files are supported"⟩)
  else
    let s3_key := "uploads/" ++ uuid_str ++ "/" ++ filename
    ([.readUpload, .scheduleBackgroundProcessing filename s3_key],
     .ok ⟨"background_job", "SUBMITTED", s3_key, none,
          "Document submitted for processing"⟩)

/-! ### Characterizations and concrete inputs used by the theorems -/

/-- The trimmed texts of the chunks with non-empty trimmed text, in order
(the content fragments the grouper accumulates for title-free chunks). -/
def nonEmptyTexts (chunks : List Chunk) : List String :=
  chunks.filterMap fun c =>
    if pyStrip c.text = "" then none else some (pyStrip c.text)

/-- The four-chunk demo sequence of the spec: titled "Intro" page 1, body
page 1, titled "Methods" page 2, body page 2. -/
def demoChunks : List Chunk :=
  [⟨"Intro", some 1, [⟨"Title", "Intro"⟩]⟩,
   ⟨"body text", some 1, [⟨"NarrativeText", "body text"⟩]⟩,
   ⟨"Methods", some 2, [⟨"Title", "Methods"⟩]⟩,
   ⟨"more text", some 2, [⟨"NarrativeText", "more text"⟩]⟩]

/-- Two consecutive title-bearing chunks. -/
def titleChunkA : Chunk := ⟨"Alpha", some 1, [⟨"Title", "Alpha"⟩]⟩

def titleChunkB : Chunk := ⟨"Beta", some 1, [⟨"Title", "Beta"⟩]⟩

/-- A chunk with whitespace-only text carrying page number 5, followed by
a normal chunk on page 1. -/
def emptyTextChunks : List Chunk :=
  [⟨"   ", some 5, []⟩, ⟨"hello", some 1, []⟩]

/-- A title-free chunk sequence with an empty-text chunk in the middle. -/
def untitledChunks : List Chunk :=
  [⟨"hello", some 1, [⟨"NarrativeText", "hello"⟩]⟩,
   ⟨"  ", some 2, []⟩,
   ⟨" world ", none, [⟨"NarrativeText", "world"⟩]⟩]

/-- A status oracle that is never terminal. -/
def inProgressSeq : Nat → String := fun _ => "IN_PROGRESS"

/-- The spec's status sequence: two `IN_PROGRESS` polls, then
`SUCCEEDED`. -/
def twoThenSucceeded : Nat → String :=
  fun k => if k < 2 then "IN_PROGRESS" else "SUCCEEDED"

/-- A workflow environment whose job completes with `PARTIAL_SUCCESS` on
the first poll. -/
def partialEnv : WorkflowEnv Unit := ⟨"job-1", fun _ => "PARTIAL_SUCCESS", ()⟩

/-! ### Helper lemmas -/

theorem dropWhile_dropWhile {α : Type} (p : α → Bool) (l : List α) :
    (l.dropWhile p).dropWhile p = l.dropWhile p := by
  induction l with
  | nil => rfl
  | cons a l ih =>
    by_cases h : p a = true
    · simpa [List.dropWhile_cons, h] using ih
    · simp [List.dropWhile_cons, h]

theorem head_dropWhile_false {α : Type} (p : α → Bool) (l : List α) (c : α)
    (h : (l.dropWhile p).head? = some c) : p c = false := by
  induction l with
  | nil => simp [List.dropWhile] at h
  | cons a l ih =>
    by_cases hp : p a = true
    · exact ih (by simpa [List.dropWhile_cons, hp] using h)
    · simp [List.dropWhile_cons, hp] at h
      subst h
      simpa using hp

theorem dropWhile_eq_self_of_head {α : Type} (p : α → Bool) (l : List α)
    (h : ∀ c, l.head? = some c → p c = false) : l.dropWhile p = l := by
  cases l with
  | nil => rfl
  | cons a l => simp [List.dropWhile_cons, h a rfl]

theorem dropWhile_isSuffix {α : Type} (p : α → Bool) (l : List α) :
    l.dropWhile p <:+ l := by
  induction l with
  | nil => exact List.nil_suffix
  | cons a l ih =>
    by_cases h : p a = true
    · simpa [List.dropWhile_cons, h] using ih.trans (List.suffix_cons a l)
    · simp [List.dropWhile_cons, h]

theorem stripChars_idem (l : List Char) :
    stripChars (stripChars l) = stripChars l := by
  have hfront :
      (stripChars l).dropWhile Char.isWhitespace = stripChars l := by
    apply dropWhile_eq_self_of_head
    intro c hc
    have hpre : stripChars l <+: l.dropWhile Char.isWhitespace := by
      have hsuf :
          (l.dropWhile Char.isWhitespace).reverse.dropWhile Char.isWhitespace
            <:+ (l.dropWhile Char.isWhitespace).reverse :=
        dropWhile_isSuffix _ _
      have h2 := (List.reverse_prefix).mpr hsuf
      simpa [stripChars] using h2
    obtain ⟨r, hr⟩ := hpre
    cases hmr : stripChars l with
    | nil => rw [hmr] at hc; simp at hc
    | cons x t =>
      rw [hmr] at hc hr
      simp at hc
      subst hc
      apply head_dropWhile_false Char.isWhitespace l x
      rw [← hr]
      simp
  calc stripChars (stripChars l)
      = ((stripChars l).reverse.dropWhile Char.isWhitespace).reverse := by
        rw [stripChars, hfront]
    _ = stripChars l := by
        rw [show (stripChars l).reverse
              = (l.dropWhile Char.isWhitespace).reverse.dropWhile
                  Char.isWhitespace by simp [stripChars]]
        rw [dropWhile_dropWhile]
        simp [stripChars]

theorem pyStrip_idem (s : String) : pyStrip (pyStrip s) = pyStrip s :=
  congrArg String.mk (stripChars_idem s.data)

theorem string_ne_empty_of_data {s : String} (h : s.data ≠ []) : s ≠ "" := by
  intro he
  exact h (by rw [he])

theorem pyJoin_ne_empty (sep x : String) (xs : List String) (hx : x ≠ "") :
    pyJoin sep (x :: xs) ≠ "" := by
  have hxd : x.data ≠ [] := by
    intro hd
    exact hx (String.ext hd)
  cases xs with
  | nil => simpa [pyJoin] using hx
  | cons y ys =>
    show x ++ sep ++ pyJoin sep (y :: ys) ≠ ""
    apply string_ne_empty_of_data
    rw [String.data_append, String.data_append]
    simp [hxd]

theorem mem_chunkTitles_ne_empty (c : Chunk) (t : String)
    (ht : t ∈ chunkTitles c) : t ≠ "" := by
  unfold chunkTitles at ht
  rw [List.mem_filterMap] at ht
  obtain ⟨e, _, hf⟩ := ht
  split at hf
  · rename_i hcond
    cases hf
    exact hcond.2
  · cases hf

theorem chunkTitles_eq_nil (c : Chunk)
    (h : ∀ e ∈ c.orig_elements, e.category ≠ "Title") :
    chunkTitles c = [] := by
  unfold chunkTitles
  rw [List.filterMap_eq_nil_iff]
  intro e he
  rw [if_neg]
  intro hcond
  exact h e he hcond.1

/-! ### Claim theorems -/

/-- **C1 (counterexample).** On the spec's four-chunk demo sequence the
grouper does *not* return page numbers `[1]` for the first group: the
"Methods" chunk's page 2 is added to the accumulator before the flush, so
the first group's pages are `[1, 2]`. -/
theorem grouper_demo_counterexample :
    group_narrative_by_title demoChunks
      ≠ [⟨"Intro", "Intro body text", [1]⟩,
         ⟨"Methods", "Methods more text", [2]⟩] := by decide

/-- **C1 (amended).** On the demo sequence the grouper returns exactly two
groups, `("Intro", "Intro body text")` and `("Methods", "Methods more
text")`, but the first group's page numbers are `[1, 2]` (the flushed
accumulator already contains the page of the title chunk that triggered
the flush) and the second group's are `[2]`. -/
theorem grouper_demo_groups :
    group_narrative_by_title demoChunks
      = [⟨"Intro", "Intro body text", [1, 2]⟩,
         ⟨"Methods", "Methods more text", [2]⟩] := by decide

/-- **C4 (counterexample).** A chunk whose trimmed text is empty but which
carries page number 5 does *not* contribute that page: on
`emptyTextChunks` the single emitted group has page numbers `[1]` only,
so page 5 appears in no group. -/
theorem grouper_empty_chunk_page_counterexample :
    group_narrative_by_title emptyTextChunks = [⟨"Untitled", "hello", [1]⟩]
    ∧ ∀ g ∈ group_narrative_by_title emptyTextChunks,
        (5 : Nat) ∉ g.page_numbers := by
  constructor
  · decide
  · decide

/-- **C4 (amended).** A chunk whose trimmed text is empty is skipped
entirely (`continue` fires before the page number is recorded): the loop
iteration emits nothing and leaves the accumulator — page numbers
included — unchanged. -/
theorem grouper_skips_empty_text_chunk (st : GroupState) (c : Chunk)
    (h : pyStrip c.text = "") : stepChunk st c = ([], st) := by
  unfold stepChunk
  simp [h]

/-- Witness for `grouper_skips_empty_text_chunk` at a whitespace-only
chunk carrying page 5. -/
theorem grouper_skips_empty_text_chunk_witness :
    stepChunk initState ⟨"   ", some 5, []⟩ = ([], initState) :=
  grouper_skips_empty_text_chunk initState ⟨"   ", some 5, []⟩ (by decide)

/-- **C8.** The derived results key is the original key's parent path,
`"/"`, the original key's stem, and `"_results.json"`; in particular
`"a/b/c.pdf"` yields `"a/b/c_results.json"`. -/
theorem results_key_derivation :
    resultsKeyFor "a/b/c.pdf" = "a/b/c_results.json"
    ∧ ∀ key : String,
        resultsKeyFor key
          = pathParent key ++ "/" ++ pathStem key ++ "_results.json" :=
  ⟨by decide, fun _ => rfl⟩

/-- **C9 (counterexample).** The endpoint's check is
`filename.lower().endswith('.pdf')`: the filename `"REPORT.PDF"` does not
end in `".pdf"`, yet the endpoint accepts it (status `SUBMITTED`, no 400
rejection), refuting the claim that every filename not ending in `".pdf"`
is rejected. -/
theorem upload_endpoint_case_counterexample :
    pyEndsWith "REPORT.PDF" ".pdf" = false
    ∧ (process_document_endpoint "REPORT.PDF" "u1").2
        = .ok ⟨"background_job", "SUBMITTED", "uploads/u1/REPORT.PDF", none,
               "Document submitted for processing"⟩ :=
  ⟨by decide, by rfl⟩

/-- **C9 (amended).** For every uploaded file whose *lowercased* filename
does not end in `".pdf"`, the endpoint rejects the request with a 400
response before reading the upload or scheduling the background
processing task (which performs the storage upload and analysis start),
so no storage or analysis call is made for a rejected upload. -/
theorem upload_endpoint_rejects_non_pdf (filename uuid_str : String)
    (h : pyEndsWith (pyLower filename) ".pdf" = false) :
    process_document_endpoint filename uuid_str
      = ([], .error ⟨400, "Only PDF files are supported"⟩) := by
  unfold process_document_endpoint
  simp [h]

/-- Witness for `upload_endpoint_rejects_non_pdf` at `"notes.txt"`. -/
theorem upload_endpoint_rejects_non_pdf_witness :
    process_document_endpoint "notes.txt" "u-1"
      = ([], .error ⟨400, "Only PDF files are supported"⟩) :=
  upload_endpoint_rejects_non_pdf "notes.txt" "u-1" (by decide)

theorem pollLoop_timedOut (statuses : Nat → String) (fuel : Nat) :
    ∀ attempt, (∀ i, i < fuel → isTerminal (statuses (attempt + i)) = false) →
      pollLoop statuses attempt fuel = .timedOut (attempt + fuel) := by
  induction fuel with
  | zero => intro a _; simp [pollLoop]
  | succ f ih =>
    intro a h
    have h0 : isTerminal (statuses a) = false := by
      simpa using h 0 (Nat.succ_pos f)
    show pollLoop statuses a (f + 1) = _
    unfold pollLoop
    simp only [h0, if_false, Bool.false_eq_true]
    have htail := ih (a + 1) (fun i hi => by
      have heq : a + 1 + i = a + (i + 1) := by omega
      rw [heq]
      exact h (i + 1) (by omega))
    rw [htail]
    congr 1
    omega

theorem pollLoop_completed (statuses : Nat → String) (j : Nat) :
    ∀ attempt fuel, j < fuel →
      (∀ i, i < j → isTerminal (statuses (attempt + i)) = false) →
      isTerminal (statuses (attempt + j)) = true →
      pollLoop statuses attempt fuel
        = .completed (statuses (attempt + j)) (attempt + j + 1) := by
  induction j with
  | zero =>
    intro a fuel hf _ hterm
    cases fuel with
    | zero => omega
    | succ f =>
      rw [show a + 0 = a from rfl] at hterm ⊢
      unfold pollLoop
      simp [hterm]
  | succ j ih =>
    intro a fuel hf hfirst hterm
    cases fuel with
    | zero => omega
    | succ f =>
      have h0 : isTerminal (statuses a) = false := by
        simpa using hfirst 0 (by omega)
      unfold pollLoop
      simp only [h0, if_false, Bool.false_eq_true]
      have htail := ih (a + 1) f (by omega)
        (fun i hi => by
          have heq : a + 1 + i = a + (i + 1) := by omega
          rw [heq]
          exact hfirst (i + 1) (by omega))
        (by
          have heq : a + 1 + j = a + (j + 1) := by omega
          rw [heq]
          exact hterm)
      rw [show a + 1 + j = a + (j + 1) from by omega] at htail
      exact htail

/-- For a positive polling interval, the k-th poll (at idealized elapsed
time `k * polling_interval`) is admitted by the guard
`elapsed_time < max_time` exactly when `k < monitorPollBudget`. -/
theorem monitorPollBudget_spec (p T k : Nat) (hp : 0 < p) :
    k * p < T ↔ k < monitorPollBudget p T := by
  unfold monitorPollBudget
  have h1 : k < (T + p - 1) / p ↔ (k + 1) * p ≤ T + p - 1 := by
    rw [Nat.lt_iff_add_one_le, Nat.le_div_iff_mul_le hp]
  rw [h1, Nat.succ_mul]
  generalize k * p = m
  omega

/-- **C3.** If no poll admitted by the bound observes a terminal status,
both monitors raise `TimeoutError` (the distinct `timedOut` outcome, not
a backend-failure status) after performing exactly the admitted number of
polls — `⌈max_time / polling_interval⌉` for the wall-clock-bounded
`monitor_job_progress`, `max_attempts` for the attempt-bounded
`wait_for_job_completion` — and no poll beyond the bound is performed. -/
theorem monitor_timeout (statuses : Nat → String) (p T A : Nat)
    (hp : 0 < p)
    (hT : ∀ k, k * p < T → isTerminal (statuses k) = false)
    (hA : ∀ k, k < A → isTerminal (statuses k) = false) :
    monitor_job_progress statuses p T = .timedOut (monitorPollBudget p T)
    ∧ wait_for_job_completion statuses A = .timedOut A := by
  constructor
  · unfold monitor_job_progress
    have := pollLoop_timedOut statuses (monitorPollBudget p T) 0
      (fun i hi => by
        simpa using hT i ((monitorPollBudget_spec p T i hp).mpr hi))
    simpa using this
  · unfold wait_for_job_completion
    have := pollLoop_timedOut statuses A 0 (fun i hi => by
      simpa using hA i hi)
    simpa using this

/-- Witness for `monitor_timeout`: an all-`IN_PROGRESS` job with interval
10 and bound 25 times out after 3 polls; the attempt-bounded variant with
4 attempts times out after 4 polls. -/
theorem monitor_timeout_witness :
    monitor_job_progress inProgressSeq 10 25 = .timedOut 3
    ∧ wait_for_job_completion inProgressSeq 4 = .timedOut 4 :=
  monitor_timeout inProgressSeq 10 25 4 (by decide)
    (fun _ _ => rfl) (fun _ _ => rfl)

/-- **C6.** If the first terminal status appears at poll `j + 1` (0-indexed
poll `j`) within the bound, both monitors return that status after exactly
`j + 1` polls and perform no further polls. -/
theorem monitor_first_terminal (statuses : Nat → String) (p T A j : Nat)
    (hp : 0 < p)
    (hfirst : ∀ i, i < j → isTerminal (statuses i) = false)
    (hterm : isTerminal (statuses j) = true)
    (hjT : j * p < T) (hjA : j < A) :
    monitor_job_progress statuses p T = .completed (statuses j) (j + 1)
    ∧ wait_for_job_completion statuses A = .completed (statuses j) (j + 1) := by
  constructor
  · unfold monitor_job_progress
    have := pollLoop_completed statuses j 0 (monitorPollBudget p T)
      ((monitorPollBudget_spec p T j hp).mp hjT)
      (fun i hi => by simpa using hfirst i hi)
      (by simpa using hterm)
    simpa using this
  · unfold wait_for_job_completion
    have := pollLoop_completed statuses j 0 A hjA
      (fun i hi => by simpa using hfirst i hi)
      (by simpa using hterm)
    simpa using this

/-- Witness for `monitor_first_terminal`: on the status sequence
`IN_PROGRESS, IN_PROGRESS, SUCCEEDED` both monitors (interval 30, bound
3600; 60 attempts) return `SUCCEEDED` after exactly 3 polls. -/
theorem monitor_first_terminal_witness :
    monitor_job_progress twoThenSucceeded 30 3600 = .completed "SUCCEEDED" 3
    ∧ wait_for_job_completion twoThenSucceeded 60
        = .completed "SUCCEEDED" 3 :=
  monitor_first_terminal twoThenSucceeded 30 3600 60 2 (by decide)
    (fun i hi => by interval_cases i <;> rfl)
    (by decide) (by decide) (by decide)

/-- **C7.** Whenever the monitor's terminal status is not `SUCCEEDED`
(`FAILED` or `PARTIAL_SUCCESS`), both synchronous workflow variants return
`results_key = none` and their event trace is exactly the document upload
and the analysis start: no results fetch and no results upload reaches the
collaborators.  (Fetch and persist events occur only in the `SUCCEEDED`
branch of the definitions.) -/
theorem workflow_non_succeeded (α : Type) (env : WorkflowEnv α)
    (pdf_path filename : String) (k1 k2 : Option String)
    (st : String) (n : Nat)
    (hmon : monitor_job_progress env.statuses 30 3600 = .completed st n)
    (hne : st ≠ "SUCCEEDED") :
    process_document env pdf_path k1
      = ([.uploadDocument (k1.getD (basename pdf_path)),
          .startAnalysis (k1.getD (basename pdf_path))],
         .ok ⟨env.job_id, st, k1.getD (basename pdf_path), none⟩)
    ∧ process_document_fileobj env filename k2
      = ([.uploadDocument (k2.getD filename),
          .startAnalysis (k2.getD filename)],
         .ok ⟨env.job_id, st, k2.getD filename, none⟩) := by
  constructor
  · unfold process_document
    rw [hmon]
    simp [hne]
  · unfold process_document_fileobj
    rw [hmon]
    simp [hne]

/-- Witness for `workflow_non_succeeded`: a job that completes with
`PARTIAL_SUCCESS` on the first poll yields `results_key = none` and a
trace without fetch or results-upload events, in both variants. -/
theorem workflow_non_succeeded_witness :
    process_document partialEnv "docs/a.pdf" none
      = ([.uploadDocument "a.pdf", .startAnalysis "a.pdf"],
         .ok ⟨"job-1", "PARTIAL_SUCCESS", "a.pdf", none⟩)
    ∧ process_document_fileobj partialEnv "b.pdf" (some "up/b.pdf")
      = ([.uploadDocument "up/b.pdf", .startAnalysis "up/b.pdf"],
         .ok ⟨"job-1", "PARTIAL_SUCCESS", "up/b.pdf", none⟩) :=
  workflow_non_succeeded Unit partialEnv "docs/a.pdf" "b.pdf"
    none (some "up/b.pdf") "PARTIAL_SUCCESS" 1 (by rfl) (by decide)

/-! ### Branch characterizations of the grouper loop body -/

theorem runGroups_cons (st : GroupState) (c : Chunk) (cs : List Chunk) :
    runGroups st (c :: cs)
      = ((stepChunk st c).1 ++ (runGroups (stepChunk st c).2 cs).1,
         (runGroups (stepChunk st c).2 cs).2) := rfl

theorem stepChunk_no_title (st : GroupState) (c : Chunk)
    (hx : pyStrip c.text ≠ "") (ht : chunkTitles c = []) :
    stepChunk st c
      = ([], ⟨st.current_titles, st.current_content ++ [pyStrip c.text],
              addPage c.page_number st.current_page_numbers⟩) := by
  simp [stepChunk, hx, ht]

theorem stepChunk_title_accumulate (st : GroupState) (c : Chunk)
    (hx : pyStrip c.text ≠ "") (ht : chunkTitles c ≠ [])
    (hc : st.current_content = []) :
    stepChunk st c
      = ([], ⟨st.current_titles ++ chunkTitles c, [pyStrip c.text],
              addPage c.page_number st.current_page_numbers⟩) := by
  simp [stepChunk, hx, ht, hc]

theorem stepChunk_title_flush (st : GroupState) (c : Chunk)
    (hx : pyStrip c.text ≠ "") (ht : chunkTitles c ≠ [])
    (hc : st.current_content ≠ []) :
    stepChunk st c
      = (save_current_group
           ⟨st.current_titles, st.current_content,
            addPage c.page_number st.current_page_numbers⟩,
         ⟨chunkTitles c, [pyStrip c.text], addPage c.page_number []⟩) := by
  simp [stepChunk, hx, ht, hc]

/-- Flushing a state with non-empty titles and non-empty content text
emits exactly one group, titled with the `" | "`-join of the accumulated
titles. -/
theorem save_current_group_of (ts cs : List String) (ps : List Nat)
    (hts : ts ≠ []) (hc : pyStrip (pyJoin " " cs) ≠ "") :
    save_current_group ⟨ts, cs, ps⟩
      = [⟨pyJoin " | " ts, pyStrip (pyJoin " " cs),
          if ps ≠ [] then sortPages ps else []⟩] := by
  unfold save_current_group
  simp [hts, hc]

/-- Flushing a state with no accumulated titles and non-empty content
emits exactly one group titled `"Untitled"`. -/
theorem save_current_group_untitled (cs : List String) (ps : List Nat)
    (hc : cs ≠ []) :
    save_current_group ⟨[], cs, ps⟩
      = [⟨"Untitled", pyStrip (pyJoin " " cs),
          if ps ≠ [] then sortPages ps else []⟩] := by
  unfold save_current_group
  have hu : ("Untitled" : String) ≠ "" := by decide
  simp [hc, hu]

/-- Every group emitted by `save_current_group` carries the title the
flush computes from the accumulated titles. -/
theorem title_of_mem_save (st : GroupState) (g : NarrativeGroup)
    (hg : g ∈ save_current_group st) :
    g.title = if st.current_titles ≠ [] then pyJoin " | " st.current_titles
              else "Untitled" := by
  unfold save_current_group at hg
  split at hg
  · simp only [] at hg
    split at hg
    next hts =>
      simp at hg
      rw [hg.2]
      simp [hts]
    next hts =>
      simp at hg
      rw [hg]
      simp [hts]
  · simp at hg

theorem save_title_ne (st : GroupState)
    (h : ∀ t ∈ st.current_titles, t ≠ "") :
    ∀ g ∈ save_current_group st, g.title ≠ "" := by
  intro g hg
  rw [title_of_mem_save st g hg]
  cases hts : st.current_titles with
  | nil => simp
  | cons t ts =>
    have htne : t ≠ "" := h t (by rw [hts]; exact List.mem_cons_self t ts)
    simp only [ne_eq, reduceCtorEq, not_false_eq_true, if_true]
    exact pyJoin_ne_empty " | " t ts htne

/-- After processing a title-bearing chunk with non-empty trimmed text,
the accumulator's content is exactly that chunk's trimmed text and its
title list is non-empty. -/
theorem stepChunk_title_state (st : GroupState) (c : Chunk)
    (ht : chunkTitles c ≠ []) (hx : pyStrip c.text ≠ "") :
    (stepChunk st c).2.current_content = [pyStrip c.text]
    ∧ (stepChunk st c).2.current_titles ≠ [] := by
  by_cases hc : st.current_content = []
  · rw [stepChunk_title_accumulate st c hx ht hc]
    refine ⟨rfl, ?_⟩
    simp only []
    intro happ
    exact ht (List.append_eq_nil.mp happ).2
  · rw [stepChunk_title_flush st c hx ht hc]
    exact ⟨rfl, ht⟩

/-- **C2 (counterexample).** Two consecutive title-bearing chunks
`("Alpha", titled "Alpha")` and `("Beta", titled "Beta")` do *not* merge:
the grouper emits two groups, `("Alpha", "Alpha")` and `("Beta",
"Beta")`, and no group titled `"Alpha | Beta"` exists — the second title
chunk flushes the group opened by the first, because the first chunk's
own text already became the current content. -/
theorem grouper_consecutive_titles_counterexample :
    group_narrative_by_title [titleChunkA, titleChunkB]
      = [⟨"Alpha", "Alpha", [1]⟩, ⟨"Beta", "Beta", [1]⟩]
    ∧ ¬ ∃ g ∈ group_narrative_by_title [titleChunkA, titleChunkB],
          g.title = "Alpha | Beta" := by
  constructor
  · decide
  · decide

/-- **C2 (amended).** A title-bearing chunk with non-empty trimmed text
always leaves the accumulator with content `[chunk.text]`, so a second
consecutive title-bearing chunk always takes the flush branch: it emits
exactly one group whose title joins only the titles accumulated *before*
it (with `" | "`) and whose content is the first chunk's text, and it
starts a fresh group whose titles are its own.  Titles of two consecutive
title-bearing chunks therefore never join into one group; the `" | "`
join combines multiple title elements within a single chunk (or titles
accumulated while no content was pending). -/
theorem grouper_consecutive_title_chunks (st : GroupState) (c1 c2 : Chunk)
    (h1t : chunkTitles c1 ≠ []) (h1x : pyStrip c1.text ≠ "")
    (h2t : chunkTitles c2 ≠ []) (h2x : pyStrip c2.text ≠ "") :
    (stepChunk st c1).2.current_content = [pyStrip c1.text]
    ∧ (stepChunk st c1).2.current_titles ≠ []
    ∧ (stepChunk (stepChunk st c1).2 c2).1.map NarrativeGroup.title
        = [pyJoin " | " (stepChunk st c1).2.current_titles]
    ∧ (stepChunk (stepChunk st c1).2 c2).1.map NarrativeGroup.content
        = [pyStrip c1.text]
    ∧ (stepChunk (stepChunk st c1).2 c2).2.current_titles = chunkTitles c2
    ∧ (stepChunk (stepChunk st c1).2 c2).2.current_content
        = [pyStrip c2.text] := by
  obtain ⟨hcc, hct⟩ := stepChunk_title_state st c1 h1t h1x
  have hflush := stepChunk_title_flush (stepChunk st c1).2 c2 h2x h2t
    (by rw [hcc]; simp)
  have hsave :
      save_current_group
        ⟨(stepChunk st c1).2.current_titles,
         (stepChunk st c1).2.current_content,
         addPage c2.page_number (stepChunk st c1).2.current_page_numbers⟩
        = [⟨pyJoin " | " (stepChunk st c1).2.current_titles, pyStrip c1.text,
            if addPage c2.page_number (stepChunk st c1).2.current_page_numbers
                 ≠ []
            then sortPages
                   (addPage c2.page_number
                     (stepChunk st c1).2.current_page_numbers)
            else []⟩] := by
    rw [hcc]
    rw [save_current_group_of _ _ _ hct]
    · rw [show pyJoin " " [pyStrip c1.text] = pyStrip c1.text from rfl,
          pyStrip_idem]
    · rw [show pyJoin " " [pyStrip c1.text] = pyStrip c1.text from rfl,
          pyStrip_idem]
      exact h1x
  refine ⟨hcc, hct, ?_, ?_, ?_, ?_⟩
  · rw [hflush]
    simp only []
    rw [hsave]
    simp
  · rw [hflush]
    simp only []
    rw [hsave]
    simp
  · rw [hflush]
  · rw [hflush]

/-- Witness for `grouper_consecutive_title_chunks` on the concrete chunks
`titleChunkA`, `titleChunkB` from the empty accumulator. -/
theorem grouper_consecutive_title_chunks_witness :
    (stepChunk initState titleChunkA).2.current_content = [pyStrip "Alpha"]
    ∧ (stepChunk initState titleChunkA).2.current_titles ≠ []
    ∧ (stepChunk (stepChunk initState titleChunkA).2 titleChunkB).1.map
        NarrativeGroup.title
        = [pyJoin " | " (stepChunk initState titleChunkA).2.current_titles]
    ∧ (stepChunk (stepChunk initState titleChunkA).2 titleChunkB).1.map
        NarrativeGroup.content = [pyStrip "Alpha"]
    ∧ (stepChunk (stepChunk initState titleChunkA).2 titleChunkB).2.current_titles
        = chunkTitles titleChunkB
    ∧ (stepChunk (stepChunk initState titleChunkA).2 titleChunkB).2.current_content
        = [pyStrip "Beta"] :=
  grouper_consecutive_title_chunks initState titleChunkA titleChunkB
    (by decide) (by decide) (by decide) (by decide)

/-- Processing a run of title-free chunks from a state never emits a
group and only appends the non-empty trimmed texts to the content. -/
theorem runGroups_no_titles (chunks : List Chunk) :
    ∀ st : GroupState, (∀ c ∈ chunks, chunkTitles c = []) →
      (runGroups st chunks).1 = []
      ∧ (runGroups st chunks).2.current_titles = st.current_titles
      ∧ (runGroups st chunks).2.current_content
          = st.current_content ++ nonEmptyTexts chunks := by
  induction chunks with
  | nil => intro st _; simp [runGroups, nonEmptyTexts]
  | cons c cs ih =>
    intro st h
    have hc : chunkTitles c = [] := h c (List.mem_cons_self c cs)
    have htail : ∀ d ∈ cs, chunkTitles d = [] :=
      fun d hd => h d (List.mem_cons_of_mem c hd)
    by_cases hx : pyStrip c.text = ""
    · rw [runGroups_cons, grouper_skips_empty_text_chunk st c hx]
      obtain ⟨h1, h2, h3⟩ := ih st htail
      refine ⟨by simpa using h1, by simpa using h2, ?_⟩
      simp only []
      rw [h3]
      simp [nonEmptyTexts, List.filterMap_cons, hx]
    · rw [runGroups_cons, stepChunk_no_title st c hx hc]
      obtain ⟨h1, h2, h3⟩ :=
        ih ⟨st.current_titles, st.current_content ++ [pyStrip c.text],
            addPage c.page_number st.current_page_numbers⟩ htail
      refine ⟨by simpa using h1, by simpa using h2, ?_⟩
      simp only []
      rw [h3]
      simp [nonEmptyTexts, List.filterMap_cons, hx]

/-- **C5.** A chunk sequence with at least one non-empty trimmed text and
no title-categorized elements yields exactly one group, titled
`"Untitled"`, whose content is the space-join of the trimmed non-empty
chunk texts in order (trimmed once more by the flush, a no-op here). -/
theorem grouper_untitled (chunks : List Chunk)
    (hnt : ∀ c ∈ chunks, ∀ e ∈ c.orig_elements, e.category ≠ "Title")
    (hne : ∃ c ∈ chunks, pyStrip c.text ≠ "") :
    (group_narrative_by_title chunks).map (fun g => (g.title, g.content))
      = [("Untitled", pyStrip (pyJoin " " (nonEmptyTexts chunks)))] := by
  have hct : ∀ c ∈ chunks, chunkTitles c = [] :=
    fun c hc => chunkTitles_eq_nil c (hnt c hc)
  obtain ⟨hrun1, hrunT, hrunC⟩ := runGroups_no_titles chunks initState hct
  have hcontent : (runGroups initState chunks).2.current_content
      = nonEmptyTexts chunks := by
    rw [hrunC]
    rfl
  have hcne : nonEmptyTexts chunks ≠ [] := by
    obtain ⟨c, hcm, hcx⟩ := hne
    have hmem : pyStrip c.text ∈ nonEmptyTexts chunks :=
      List.mem_filterMap.mpr ⟨c, hcm, by simp [hcx]⟩
    exact List.ne_nil_of_mem hmem
  have hfinal : (runGroups initState chunks).2
      = ⟨[], nonEmptyTexts chunks,
          (runGroups initState chunks).2.current_page_numbers⟩ := by
    cases hst : (runGroups initState chunks).2
    rw [hst] at hrunT hcontent
    simp at hrunT hcontent
    simp [hrunT, hcontent, initState]
  unfold group_narrative_by_title
  rw [hrun1, hfinal, save_current_group_untitled _ _ hcne]
  simp

/-- Witness for `grouper_untitled` on `untitledChunks`. -/
theorem grouper_untitled_witness :
    (group_narrative_by_title untitledChunks).map (fun g => (g.title, g.content))
      = [("Untitled", pyStrip (pyJoin " " (nonEmptyTexts untitledChunks)))] :=
  grouper_untitled untitledChunks (by decide) (by decide)

/-- One loop iteration preserves the invariant that the accumulated
titles are non-empty strings, and every group it emits has a non-empty
title. -/
theorem stepChunk_title_inv (st : GroupState) (c : Chunk)
    (h : ∀ t ∈ st.current_titles, t ≠ "") :
    (∀ t ∈ (stepChunk st c).2.current_titles, t ≠ "")
    ∧ (∀ g ∈ (stepChunk st c).1, g.title ≠ "") := by
  by_cases hx : pyStrip c.text = ""
  · rw [grouper_skips_empty_text_chunk st c hx]
    exact ⟨h, by simp⟩
  · by_cases ht : chunkTitles c = []
    · rw [stepChunk_no_title st c hx ht]
      exact ⟨h, by simp⟩
    · by_cases hcn : st.current_content = []
      · rw [stepChunk_title_accumulate st c hx ht hcn]
        refine ⟨?_, by simp⟩
        intro t htm
        rcases List.mem_append.mp htm with h1 | h2
        · exact h t h1
        · exact mem_chunkTitles_ne_empty c t h2
      · rw [stepChunk_title_flush st c hx ht hcn]
        refine ⟨?_, ?_⟩
        · intro t htm
          exact mem_chunkTitles_ne_empty c t htm
        · intro g hg
          exact save_title_ne _ (by simpa using h) g hg

theorem runGroups_title_inv (chunks : List Chunk) :
    ∀ st : GroupState, (∀ t ∈ st.current_titles, t ≠ "") →
      (∀ g ∈ (runGroups st chunks).1, g.title ≠ "")
      ∧ (∀ t ∈ (runGroups st chunks).2.current_titles, t ≠ "") := by
  induction chunks with
  | nil =>
    intro st h
    exact ⟨by simp [runGroups], by simpa [runGroups] using h⟩
  | cons c cs ih =>
    intro st h
    obtain ⟨hst, hem⟩ := stepChunk_title_inv st c h
    obtain ⟨hgs, hfin⟩ := ih (stepChunk st c).2 hst
    rw [runGroups_cons]
    refine ⟨?_, by simpa using hfin⟩
    intro g hg
    rcases List.mem_append.mp (by simpa using hg) with h1 | h2
    · exact hem g h1
    · exact hgs g h2

/-- **C10.** Every group emitted by `group_narrative_by_title` has a
non-empty title: the accumulated titles are always non-empty strings
(empty trimmed title texts are filtered out), so a flushed title is
either a `" | "`-join of non-empty strings or the literal `"Untitled"`. -/
theorem grouper_title_ne_empty (chunks : List Chunk) (g : NarrativeGroup)
    (hg : g ∈ group_narrative_by_title chunks) : g.title ≠ "" := by
  unfold group_narrative_by_title at hg
  obtain ⟨hgs, hfin⟩ := runGroups_title_inv chunks initState (by simp [initState])
  rcases List.mem_append.mp hg with h1 | h2
  · exact hgs g h1
  · exact save_title_ne _ hfin g h2

/-- Witness for `grouper_title_ne_empty`: the group emitted for a single
untitled chunk is a member of the output and has a non-empty title. -/
theorem grouper_title_ne_empty_witness :
    (⟨"Untitled", "hi", []⟩ : NarrativeGroup).title ≠ "" :=
  grouper_title_ne_empty [⟨"hi", none, []⟩] ⟨"Untitled", "hi", []⟩ (by decide)

end Orbit
